import Mathlib

/-!
Verification of the deduplication-and-caching core of `article-checker`.

Shallow embedding of:
  * `src/article_checker/services/cache.py`   (`CacheManager`)
  * `src/article_checker/services/gist_store.py` (`GistStore`)
  * `src/article_checker/services/author_evaluator.py` (`AuthorEvaluator`)
  * `src/article_checker/models/paper.py`     (`Paper`, `Author`)
  * column schemas from `scripts/run.py`

Modelling conventions:
  * Python dictionaries are association lists with first-match lookup and
    in-place overwrite on insert; keys are unique in every state the
    program constructs, under which these operations coincide with
    Python `dict` semantics.
  * `datetime` values (always carried as ISO-format strings in the code)
    are modelled as integers counting days since 2000-01-01, so that
    `datetime.fromisoformat` / `isoformat` become the identity bridge and
    the literal default `"2000-01-01"` becomes `0`.  `timedelta(days=n)`
    is the integer `n`.
  * `hashlib.md5(s.encode()).hexdigest()` is an external library call; it
    is passed in as an abstract function `md5 : String → String`.
  * Network and filesystem effects are passed in as explicit outcome
    values (`Except`, sum types); a Python `try/except` that swallows an
    exception becomes a `match` on the outcome.
-/

set_option maxHeartbeats 1000000

namespace ArticleChecker

/-- A Python value as stored in the cache dictionaries: the program only
ever stores strings and integers there (timestamps, being ISO strings,
are modelled as `int` per the day-count convention above). -/
inductive Val where
  | str : String → Val
  | int : Int → Val
deriving DecidableEq, Repr

/-- A Python `dict` with string keys (one cache entry / one CSV row). -/
abbrev Dict := List (String × Val)

/-- Lookup `d.get(key)` / `d[key]`: first-match association-list lookup. -/
def alget {β : Type} : List (String × β) → String → Option β
  | [], _ => none
  | (k, v) :: rest, key => if k = key then some v else alget rest key

/-- Update `d[key] = v`: overwrite in place if the key is present, else append
(Python dicts preserve insertion order). -/
def alinsert {β : Type} : List (String × β) → String → β → List (String × β)
  | [], key, v => [(key, v)]
  | (k, w) :: rest, key, v =>
      if k = key then (key, v) :: rest else (k, w) :: alinsert rest key v

/-- Read `d.get(key, default)` for string-valued fields. -/
def getStrD (d : Dict) (key dflt : String) : String :=
  match alget d key with
  | some (Val.str s) => s
  | _ => dflt

/-- Read `d.get(key, default)` for integer-valued fields. -/
def getIntD (d : Dict) (key : String) (dflt : Int) : Int :=
  match alget d key with
  | some (Val.int n) => n
  | _ => dflt

/-- Read `d.get(key)` back into an `Optional[int]` field. -/
def getInt? (d : Dict) (key : String) : Option Int :=
  match alget d key with
  | some (Val.int n) => some n
  | _ => none

/-- Read `d.get(key)` back into an `Optional[str]` field. -/
def getStr? (d : Dict) (key : String) : Option String :=
  match alget d key with
  | some (Val.str s) => some s
  | _ => none

/-- Model of `datetime.fromisoformat(data.get(field, "2000-01-01"))` under the
day-count convention: a stored `Val.int t` is the timestamp `t`; the
missing-key default `"2000-01-01"` is day `0`. -/
def entry_time (d : Dict) (field : String) : Int :=
  match alget d field with
  | some (Val.int t) => t
  | _ => 0

/-- In-memory state of `cache.py:CacheManager`: the two expiry windows
(`timedelta` in days) and the two mappings (md5 key → entry dict). -/
structure CacheManager where
  authorCacheExpiry : Int
  sentPapersExpiry : Int
  authorCache : List (String × Dict)
  sentPapers : List (String × Dict)
deriving DecidableEq, Repr

/-- One pass of `_cleanup_expired` over one mapping: collect the keys
with `now - timestamp > expiry` and delete them, i.e. keep exactly the
entries that are not strictly older than the window. -/
def cleanup_map (now expiry : Int) (field : String)
    (m : List (String × Dict)) : List (String × Dict) :=
  m.filter (fun kv => !decide (now - entry_time kv.2 field > expiry))

/-- Method `CacheManager._cleanup_expired`: prune both mappings
(`cached_at` against the author window, `sent_at` against the
sent-papers window). -/
def CacheManager.cleanup_expired (now : Int) (cm : CacheManager) : CacheManager :=
  { cm with
    authorCache := cleanup_map now cm.authorCacheExpiry "cached_at" cm.authorCache
    sentPapers := cleanup_map now cm.sentPapersExpiry "sent_at" cm.sentPapers }

/-- Method `CacheManager._load_caches` (as run by `__init__`): install the two
mappings produced by the configured backends, then immediately run
`_cleanup_expired`.  The backend results are passed in as values. -/
def load_caches (authorExpiryDays sentExpiryDays : Int)
    (loadedAuthor loadedSent : List (String × Dict)) (now : Int) : CacheManager :=
  CacheManager.cleanup_expired now
    { authorCacheExpiry := authorExpiryDays
      sentPapersExpiry := sentExpiryDays
      authorCache := loadedAuthor
      sentPapers := loadedSent }

/-- Constructor `CacheManager(...)` with the default keyword arguments
`author_cache_expiry_days=180`, `sent_papers_expiry_days=30`. -/
def mk_cache_manager_default (loadedAuthor loadedSent : List (String × Dict))
    (now : Int) : CacheManager :=
  load_caches 180 30 loadedAuthor loadedSent now

/-- Python `str.lower()` (character-wise case mapping; the ASCII range
is all the program exercises). -/
def pyLower (s : String) : String :=
  String.mk (s.data.map Char.toLower)

/-- Python `str.strip()`: remove leading and trailing whitespace. -/
def pyStrip (s : String) : String :=
  String.mk
    (((s.data.dropWhile Char.isWhitespace).reverse.dropWhile
        Char.isWhitespace).reverse)

/-- Method `CacheManager._author_key`: md5 of the lowercased, stripped name
(`name.lower().strip()`). -/
def author_key (md5 : String → String) (name : String) : String :=
  md5 (pyStrip (pyLower name))

/-- Method `CacheManager._paper_key`: md5 of the identifier, no normalization. -/
def paper_key (md5 : String → String) (paper_id : String) : String :=
  md5 paper_id

/-- Method `CacheManager.get_author`: return the cached entry only when it is
present, truthy (a non-empty dict) and not expired at lookup time. -/
def get_author (md5 : String → String) (now : Int) (cm : CacheManager)
    (name : String) : Option Dict :=
  match alget cm.authorCache (author_key md5 name) with
  | some data =>
      if data.isEmpty then none
      else if decide (now - entry_time data "cached_at" ≤ cm.authorCacheExpiry)
      then some data else none
  | none => none

/-- Method `CacheManager.set_author`: stamp `cached_at = now` and `name` into
the caller's dict (in-place mutation, modelled by returning the mutated
dict) and store that same dict under the author key. -/
def set_author (md5 : String → String) (now : Int) (cm : CacheManager)
    (name : String) (data : Dict) : CacheManager × Dict :=
  let data' := alinsert (alinsert data "cached_at" (Val.int now)) "name" (Val.str name)
  ({ cm with authorCache := alinsert cm.authorCache (author_key md5 name) data' },
   data')

/-- Method `CacheManager.is_paper_sent`: key membership in the sent mapping. -/
def is_paper_sent (md5 : String → String) (cm : CacheManager)
    (paper_id : String) : Bool :=
  (alget cm.sentPapers (paper_key md5 paper_id)).isSome

/-- Method `CacheManager.mark_paper_sent`: record the sent-paper row. -/
def mark_paper_sent (md5 : String → String) (now : Int) (cm : CacheManager)
    (paper_id title source doi source_symbol citation_label : String) :
    CacheManager :=
  { cm with
    sentPapers := alinsert cm.sentPapers (paper_key md5 paper_id)
      [("paper_id", Val.str paper_id), ("doi", Val.str doi),
       ("title", Val.str title), ("source", Val.str source),
       ("source_symbol", Val.str source_symbol), ("sent_at", Val.int now),
       ("citation_label", Val.str citation_label)] }

/-- Dataclass `models/paper.py:Author`.  The dataclass declares the `name` field as
an `AuthorName` triple, but `cache.py` and `author_evaluator.py` consume
it as the raw display-name string fed to `.lower().strip()`; the cache
and evaluator layers under verification are therefore embedded at that
string level.  The metric fields are `Optional` and default to `None`. -/
structure Author where
  name : String
  h_index : Option Int := none
  citation_count : Option Int := none
  paper_count : Option Int := none
  semantic_scholar_url : Option String := none
deriving DecidableEq, Repr

/-- Dataclass `models/paper.py:Paper`, restricted to the fields the core reads or
writes (identifier, author list and the computed score fields; the
remaining fields are carried opaquely by the code and omitted). -/
structure Paper where
  id : String
  title : String := ""
  source : String := ""
  authors : List Author := []
  max_h_index : Int := 0
  score_label : String := ""
  score_class : String := ""
deriving DecidableEq, Repr

/-- Python `max` on a non-empty list of ints (`max(h_indices)`). -/
def listMax : List Int → Int
  | [] => 0
  | x :: xs => xs.foldl max x

/-- Method `Paper.compute_score`: if the author list is non-empty, set
`max_h_index` to the maximum of the non-`None` h-indices (0 when all are
`None`); then derive the label/class tier from `max_h_index`. -/
def compute_score (p : Paper) : Paper :=
  let p1 :=
    if p.authors.isEmpty then p
    else
      let h_indices := p.authors.filterMap (fun a => a.h_index)
      { p with max_h_index := if h_indices.isEmpty then 0 else listMax h_indices }
  let lc : String × String :=
    if p1.max_h_index ≥ 100 then ("世界的権威", "score-s-plus")
    else if p1.max_h_index ≥ 50 then ("トップ研究者", "score-s")
    else if p1.max_h_index ≥ 20 then ("中核研究者", "score-a")
    else if p1.max_h_index ≥ 10 then ("注目研究者", "score-b")
    else ("若手研究者", "score-c")
  { p1 with score_label := lc.1, score_class := lc.2 }

/-- Method `CacheManager.get_unsent_papers`: the method only reads `self`, so
the returned state is the incoming state; the result keeps, in order,
the papers whose id is not marked sent. -/
def get_unsent_papers (md5 : String → String) (cm : CacheManager)
    (papers : List Paper) : List Paper × CacheManager :=
  (papers.filter (fun p => !is_paper_sent md5 cm p.id), cm)

/-- Observable events of one `AuthorEvaluator` run: an author resolved
from cache, an external Semantic Scholar call, an empty-name early
return, or a `time.sleep(RATE_LIMIT_DELAY)`. -/
inductive Ev where
  | hit : String → Ev
  | fetch : String → Ev
  | skip : String → Ev
  | sleep : Ev
deriving DecidableEq, Repr

/-- Outcome of `_search_author(name)` as seen by `_evaluate_author`:
`Except.error` models an exception escaping `_search_author` (caught by
the evaluator's own `try`), `Except.ok none` the `None` return (request
error swallowed inside, or no result), `Except.ok (some d)` a hit. -/
abbrev SearchOutcome := Except String (Option Dict)

/-- Method `AuthorEvaluator._evaluate_author`: empty name → return; cache hit →
populate the four metric fields from the cached dict; miss → run the
external search, and on a truthy result populate the fields (with the
code's literal defaults) and write the result through to the cache; an
exception or falsy result leaves author and cache untouched.  Returns
the updated author, the updated cache state and the event trace. -/
def evaluate_author (md5 : String → String) (now : Int)
    (search : String → SearchOutcome) (cm : CacheManager) (a : Author) :
    Author × CacheManager × List Ev :=
  if a.name = "" then (a, cm, [Ev.skip a.name])
  else
    match get_author md5 now cm a.name with
    | some cached =>
        ({ a with
            h_index := getInt? cached "h_index"
            citation_count := getInt? cached "citation_count"
            paper_count := getInt? cached "paper_count"
            semantic_scholar_url := getStr? cached "url" },
         cm, [Ev.hit a.name])
    | none =>
        match search a.name with
        | Except.error _ => (a, cm, [Ev.fetch a.name])
        | Except.ok none => (a, cm, [Ev.fetch a.name])
        | Except.ok (some data) =>
            if data.isEmpty then (a, cm, [Ev.fetch a.name])
            else
              let a' := { a with
                h_index := some (getIntD data "hIndex" 0)
                citation_count := some (getIntD data "citationCount" 0)
                paper_count := some (getIntD data "paperCount" 0)
                semantic_scholar_url := some (getStrD data "url" "") }
              let cm' := (set_author md5 now cm a.name
                [("h_index", Val.int (getIntD data "hIndex" 0)),
                 ("citation_count", Val.int (getIntD data "citationCount" 0)),
                 ("paper_count", Val.int (getIntD data "paperCount" 0)),
                 ("url", Val.str (getStrD data "url" ""))]).1
              (a', cm', [Ev.fetch a.name])

/-- The loop body of `evaluate_paper`: iterate over the enumerated slice
`paper.authors[:max_authors]`, evaluating each author in turn, and after
each one sleep iff `i < len(paper.authors) - 1` (`total` is the full,
untruncated author count). -/
def evaluate_loop (md5 : String → String) (now : Int)
    (search : String → SearchOutcome) (total : Int) :
    List Author → Int → CacheManager → List Author × CacheManager × List Ev
  | [], _, cm => ([], cm, [])
  | a :: rest, i, cm =>
      let r := evaluate_author md5 now search cm a
      let pause := if i < total - 1 then [Ev.sleep] else []
      let rest' := evaluate_loop md5 now search total rest (i + 1) r.2.1
      (r.1 :: rest'.1, rest'.2.1, r.2.2 ++ pause ++ rest'.2.2)

/-- Method `AuthorEvaluator.evaluate_paper`: evaluate the first `max_authors`
authors in source order (mutating them in place — the remaining suffix
is never touched), with the loop's sleep rule, then `compute_score`. -/
def evaluate_paper (md5 : String → String) (now : Int)
    (search : String → SearchOutcome) (cm : CacheManager) (p : Paper)
    (max_authors : Nat) : Paper × CacheManager × List Ev :=
  let r :=
    evaluate_loop md5 now search (p.authors.length : Int)
      (p.authors.take max_authors) 0 cm
  (compute_score { p with authors := r.1 ++ p.authors.drop max_authors },
   r.2.1, r.2.2)

/-- Schema `scripts/run.py:SENT_PAPERS_COLUMNS`. -/
def SENT_PAPERS_COLUMNS : List String :=
  ["paper_id", "doi", "title", "source", "source_symbol", "sent_at",
   "citation_label"]

/-- Schema `scripts/run.py:AUTHOR_CACHE_COLUMNS`. -/
def AUTHOR_CACHE_COLUMNS : List String :=
  ["name", "h_index", "citation_count", "paper_count", "url", "cached_at"]

/-- Configuration of `gist_store.py:GistStore` (the gist id, token and
HTTP session carry no cache semantics and are omitted). -/
structure GistStore where
  filename : String
  columns : List String
deriving DecidableEq, Repr

/-- Outcome of the HTTP GET in `GistStore.load`: a `RequestException`
(connection error or `raise_for_status`), or the decoded `files` mapping
of the gist response, filename → CSV text content. -/
inductive GistResponse where
  | err : String → GistResponse
  | ok : List (String × String) → GistResponse
deriving DecidableEq, Repr

/-- Method `GistStore._key_for`: md5 of the row's value in the first configured
column (missing → `""`). -/
def key_for (md5 : String → String) (store : GistStore) (row : Dict) : String :=
  md5 (getStrD row (store.columns.headD "") "")

/-- The row-accumulation loop of `GistStore.load`:
`result[key] = {col: row.get(col, "") for col in columns}`. -/
def load_rows (md5 : String → String) (store : GistStore) :
    List Dict → List (String × Dict) → List (String × Dict)
  | [], result => result
  | row :: rest, result =>
      load_rows md5 store rest
        (alinsert result (key_for md5 store row)
          (store.columns.map (fun c => (c, Val.str (getStrD row c "")))))

/-- Method `GistStore.load`: a request error yields `{}` (logged); a gist
without the target file yields `{}`; blank content yields `{}`;
otherwise the CSV text is parsed by `csv.DictReader` (an external
library, passed in as `parseRows`) and folded into the keyed mapping. -/
def gist_load (md5 : String → String) (parseRows : String → List Dict)
    (store : GistStore) (resp : GistResponse) : List (String × Dict) :=
  match resp with
  | GistResponse.err _ => []
  | GistResponse.ok files =>
      match alget files store.filename with
      | none => []
      | some content =>
          if pyStrip content = "" then []
          else load_rows md5 store (parseRows content) []

/-- Python's ordering on the values `sorted` compares in
`GistStore.save` (`row.get(columns[-1], "")`): lexicographic on strings,
numeric on ints.  A mixed-type comparison raises `TypeError` in Python
and never arises between well-formed rows of one cache; it is ordered
arbitrarily here. -/
def Val.keyLe : Val → Val → Bool
  | Val.str a, Val.str b => a ≤ b
  | Val.int a, Val.int b => a ≤ b
  | Val.str _, Val.int _ => true
  | Val.int _, Val.str _ => false

/-- The sort key of `GistStore.save`:
`lambda r: r.get(self.columns[-1], "")`. -/
def save_key (store : GistStore) (row : Dict) : Val :=
  (alget row (store.columns.getLastD "")).getD (Val.str "")

/-- The row ordering of `GistStore.save`:
`sorted(data.values(), key=lambda r: r.get(self.columns[-1], ""))`.
Python's `sorted` is a stable sort; `List.insertionSort` is the stable
sort of the same key order, so the two agree exactly. -/
def gist_save_rows (store : GistStore) (data : List (String × Dict)) :
    List Dict :=
  List.insertionSort
    (fun r s => Val.keyLe (save_key store r) (save_key store s) = true)
    (data.map Prod.snd)

/-- The CSV body written by `GistStore.save`: the sorted rows, each
projected to the configured columns
(`{col: row.get(col, "") for col in columns}`, stringified). -/
def gist_save_body (store : GistStore) (data : List (String × Dict)) :
    List (List (String × Val)) :=
  (gist_save_rows store data).map
    (fun row => store.columns.map (fun c => (c, (alget row c).getD (Val.str ""))))

/-- A stub external store for `CacheManager.save`: `fails` says whether
its `save` raises, `attempts` counts the `save` calls it received. -/
structure StoreStub where
  fails : Bool
  attempts : Nat
deriving DecidableEq, Repr

/-- One `store.save(...)` call against a stub: the call is recorded and
either raises or succeeds. -/
def StoreStub.doSave (s : StoreStub) : StoreStub × Except String Unit :=
  ({ s with attempts := s.attempts + 1 },
   if s.fails then Except.error "save failed" else Except.ok ())

/-- Method `CacheManager.save` (both external stores configured): save the
author mapping, catching and logging any exception; then save the sent
mapping the same way.  Neither `try` block touches the in-memory
mappings; no exception leaves the method.  Returns the unchanged
manager, both stubs (with their attempt counts) and the error log. -/
def cm_save (authorStore sentStore : StoreStub) (cm : CacheManager) :
    CacheManager × StoreStub × StoreStub × List String :=
  let (as', r1) := authorStore.doSave
  let log1 :=
    match r1 with
    | Except.ok _ => []
    | Except.error e => ["Failed to save author cache to external store: " ++ e]
  let (ss', r2) := sentStore.doSave
  let log2 :=
    match r2 with
    | Except.ok _ => []
    | Except.error e => ["Failed to save sent papers to external store: " ++ e]
  (cm, as', ss', log1 ++ log2)

/-- State of one local cache file as `_load_json` finds it: absent,
present but rejected by `json.load`, or parsed to a mapping. -/
inductive LocalFile where
  | missing : LocalFile
  | unparsable : String → LocalFile
  | parsed : List (String × Dict) → LocalFile
deriving DecidableEq, Repr

/-- Method `CacheManager._load_json`: empty mapping when the file does not exist, `{}`
(with a logged warning) when reading or parsing raises, else the parsed
mapping. -/
def load_json (f : LocalFile) : List (String × Dict) :=
  match f with
  | LocalFile.missing => []
  | LocalFile.unparsable _ => []
  | LocalFile.parsed d => d

/-! ## Helper lemmas -/

theorem alget_alinsert_self {β : Type} (m : List (String × β)) (k : String) (v : β) :
    alget (alinsert m k v) k = some v := by
  induction m with
  | nil => simp [alinsert, alget]
  | cons kv rest ih =>
      by_cases h : kv.1 = k <;> simp [alinsert, alget, h, ih]

theorem alget_alinsert_ne {β : Type} (m : List (String × β)) {k k' : String}
    (v : β) (h : k' ≠ k) : alget (alinsert m k' v) k = alget m k := by
  induction m with
  | nil => simp [alinsert, alget, h]
  | cons kv rest ih =>
      obtain ⟨k0, v0⟩ := kv
      by_cases hk : k0 = k'
      · have hkk : k0 ≠ k := by rw [hk]; exact h
        simp [alinsert, alget, hk, h, hkk]
      · simp [alinsert, alget, hk, ih]

/-! ## C1: `get_unsent_papers` is a pure, order-preserving filter -/

/-- Claim C1: For every list of papers and every cache state,
`get_unsent_papers` returns exactly the order-preserving sublist of the
papers whose md5-hashed identifier is not a key of the sent-papers
mapping, leaves both cache mappings unchanged (the returned state is the
input state), and calling it twice on the same list without an
intervening `mark_paper_sent` yields identical results both times. -/
theorem claim1_get_unsent_papers (md5 : String → String) (cm : CacheManager)
    (papers : List Paper) :
    ((get_unsent_papers md5 cm papers).2 = cm)
    ∧ (get_unsent_papers md5 cm papers).1
        = papers.filter (fun p => (alget cm.sentPapers (md5 p.id)).isNone)
    ∧ List.Sublist (get_unsent_papers md5 cm papers).1 papers
    ∧ (∀ p, p ∈ (get_unsent_papers md5 cm papers).1
          ↔ p ∈ papers ∧ alget cm.sentPapers (md5 p.id) = none)
    ∧ (get_unsent_papers md5 (get_unsent_papers md5 cm papers).2 papers).1
        = (get_unsent_papers md5 cm papers).1 := by
  refine ⟨rfl, ?_, ?_, ?_, rfl⟩
  · show papers.filter _ = papers.filter _
    apply List.filter_congr
    intro p _
    cases h : alget cm.sentPapers (md5 p.id) <;>
      simp [is_paper_sent, paper_key, h]
  · exact List.filter_sublist papers
  · intro p
    simp [get_unsent_papers, List.mem_filter, is_paper_sent, paper_key,
      Option.isSome_iff_ne_none]

/-! ## C2: expiry cleanup runs on load and removes exactly the stale entries -/

/-- Claim C2: Constructing the manager (with default expiry windows 180
and 30 days) runs the expiry cleanup immediately after loading: each
resulting mapping is exactly the loaded mapping restricted to entries
with `now - timestamp ≤ threshold`; in particular a sent-paper record
aged 31 days is absent afterwards, one aged 29 days is retained, and no
expired entry remains in either in-memory mapping. -/
theorem claim2_cleanup_expired (now : Int) (la ls : List (String × Dict)) :
    (mk_cache_manager_default la ls now).authorCacheExpiry = 180
    ∧ (mk_cache_manager_default la ls now).sentPapersExpiry = 30
    ∧ (mk_cache_manager_default la ls now).authorCache
        = cleanup_map now 180 "cached_at" la
    ∧ (mk_cache_manager_default la ls now).sentPapers
        = cleanup_map now 30 "sent_at" ls
    ∧ (∀ ae se, (load_caches ae se la ls now).authorCache
          = cleanup_map now ae "cached_at" la
        ∧ (load_caches ae se la ls now).sentPapers
          = cleanup_map now se "sent_at" ls)
    ∧ (∀ k d, (k, d) ∈ (mk_cache_manager_default la ls now).sentPapers
          ↔ (k, d) ∈ ls ∧ now - entry_time d "sent_at" ≤ 30)
    ∧ (∀ k d, (k, d) ∈ (mk_cache_manager_default la ls now).authorCache
          ↔ (k, d) ∈ la ∧ now - entry_time d "cached_at" ≤ 180)
    ∧ alget (mk_cache_manager_default []
          [("old", [("sent_at", Val.int (now - 31))]),
           ("fresh", [("sent_at", Val.int (now - 29))])] now).sentPapers "old"
        = none
    ∧ alget (mk_cache_manager_default []
          [("old", [("sent_at", Val.int (now - 31))]),
           ("fresh", [("sent_at", Val.int (now - 29))])] now).sentPapers "fresh"
        = some [("sent_at", Val.int (now - 29))] := by
  refine ⟨rfl, rfl, rfl, rfl, fun ae se => ⟨rfl, rfl⟩, ?_, ?_, ?_, ?_⟩
  · intro k d
    simp [mk_cache_manager_default, load_caches, CacheManager.cleanup_expired,
      cleanup_map, List.mem_filter, not_lt]
  · intro k d
    simp [mk_cache_manager_default, load_caches, CacheManager.cleanup_expired,
      cleanup_map, List.mem_filter, not_lt]
  · have h31 : now - (now - 31) > 30 := by omega
    simp [mk_cache_manager_default, load_caches, CacheManager.cleanup_expired,
      cleanup_map, entry_time, alget, h31]
  · have h31 : now - (now - 31) > 30 := by omega
    have h29 : ¬ now - (now - 29) > 30 := by omega
    simp [mk_cache_manager_default, load_caches, CacheManager.cleanup_expired,
      cleanup_map, entry_time, alget, h31, h29]

/-! ## C9: cache keys — normalization for authors, none for papers -/

/-- Claim C9: Author cache keys are the hash of the lowercased,
whitespace-trimmed name — so `"Jane Doe"`, `"jane doe"` and
`" Jane Doe "` all produce the same key — while paper keys are the hash
of the identifier with no normalization. -/
theorem claim9_cache_keys (md5 : String → String) (name paper_id : String) :
    author_key md5 name = md5 (pyStrip (pyLower name))
    ∧ paper_key md5 paper_id = md5 paper_id
    ∧ author_key md5 "Jane Doe" = author_key md5 "jane doe"
    ∧ author_key md5 " Jane Doe " = author_key md5 "jane doe"
    ∧ alget (set_author md5 0 (CacheManager.mk 180 30 [] []) "Jane Doe"
          [("h_index", Val.int 7)]).1.authorCache (author_key md5 " jane doe ")
        = some ((set_author md5 0 (CacheManager.mk 180 30 [] []) "Jane Doe"
          [("h_index", Val.int 7)]).2) := by
  refine ⟨rfl, rfl, ?_, ?_, ?_⟩
  · exact congrArg md5 (by decide)
  · exact congrArg md5 (by decide)
  · show alget (alinsert _ (author_key md5 "Jane Doe") _) _ = _
    have hkey : author_key md5 " jane doe " = author_key md5 "Jane Doe" :=
      congrArg md5 (by decide)
    rw [hkey, alget_alinsert_self]
    rfl

/-! ## C10: `set_author` mutates and aliases the caller's dict -/

/-- Claim C10: `set_author` inserts `cached_at = now` and `name` into the
dict passed by the caller (mutation is modelled by returning the mutated
dict) and stores that same dict in the author mapping: after the call
the cached entry and the caller-visible dict are the same value, holding
the two inserted keys, and the sent-papers mapping is untouched. -/
theorem claim10_set_author (md5 : String → String) (now : Int)
    (cm : CacheManager) (name : String) (data : Dict) :
    (set_author md5 now cm name data).2
        = alinsert (alinsert data "cached_at" (Val.int now)) "name" (Val.str name)
    ∧ alget (set_author md5 now cm name data).1.authorCache
        (author_key md5 name) = some (set_author md5 now cm name data).2
    ∧ alget (set_author md5 now cm name data).2 "cached_at"
        = some (Val.int now)
    ∧ alget (set_author md5 now cm name data).2 "name"
        = some (Val.str name)
    ∧ (set_author md5 now cm name data).1.sentPapers = cm.sentPapers := by
  refine ⟨rfl, ?_, ?_, ?_, rfl⟩
  · exact alget_alinsert_self ..
  · show alget (alinsert (alinsert data "cached_at" (Val.int now)) "name"
      (Val.str name)) "cached_at" = some (Val.int now)
    rw [alget_alinsert_ne _ _ (by decide), alget_alinsert_self]
  · exact alget_alinsert_self ..

/-! ## C4: paper score aggregation and tier boundaries -/

theorem compute_score_max_h_index (p : Paper) :
    (compute_score p).max_h_index =
      if p.authors.isEmpty then p.max_h_index
      else if (p.authors.filterMap (fun a => a.h_index)).isEmpty then 0
      else listMax (p.authors.filterMap (fun a => a.h_index)) := by
  unfold compute_score
  by_cases ha : p.authors.isEmpty <;> simp [ha]

theorem compute_score_tier (p : Paper) :
    ((compute_score p).score_label, (compute_score p).score_class) =
      (if (compute_score p).max_h_index ≥ 100 then ("世界的権威", "score-s-plus")
       else if (compute_score p).max_h_index ≥ 50 then ("トップ研究者", "score-s")
       else if (compute_score p).max_h_index ≥ 20 then ("中核研究者", "score-a")
       else if (compute_score p).max_h_index ≥ 10 then ("注目研究者", "score-b")
       else ("若手研究者", "score-c")) := by
  unfold compute_score
  by_cases ha : p.authors.isEmpty <;> simp [ha]

/-- Claim C4: After evaluation the paper's aggregate score is the maximum
h-index over the resolved authors only (0 when none resolved, given the
dataclass default `max_h_index = 0`), and that integer maps to exactly
five tiers with boundaries ≥100, ≥50, ≥20, ≥10, else baseline: h-index
99 lands in the tier below the top, 100 in the top tier, a paper with no
resolved authors gets the baseline tier, and a paper whose middle author
failed to resolve scores the max of the two resolved authors. -/
theorem claim4_compute_score (p : Paper) (h : p.max_h_index = 0) :
    ((compute_score p).max_h_index =
      if (p.authors.filterMap (fun a => a.h_index)).isEmpty then 0
      else listMax (p.authors.filterMap (fun a => a.h_index)))
    ∧ ((compute_score p).score_label, (compute_score p).score_class) =
        (if (compute_score p).max_h_index ≥ 100 then ("世界的権威", "score-s-plus")
         else if (compute_score p).max_h_index ≥ 50 then ("トップ研究者", "score-s")
         else if (compute_score p).max_h_index ≥ 20 then ("中核研究者", "score-a")
         else if (compute_score p).max_h_index ≥ 10 then ("注目研究者", "score-b")
         else ("若手研究者", "score-c"))
    ∧ (compute_score
        (Paper.mk "p99" "" "" [Author.mk "a" (some 99) none none none] 0 "" "")).score_class
        = "score-s"
    ∧ (compute_score
        (Paper.mk "p100" "" "" [Author.mk "a" (some 100) none none none] 0 "" "")).score_class
        = "score-s-plus"
    ∧ (compute_score (Paper.mk "p0" "" "" [] 0 "" "")).score_class = "score-c"
    ∧ (compute_score
        (Paper.mk "p3" "" ""
          [Author.mk "a1" (some 30) none none none,
           Author.mk "a2" none none none none,
           Author.mk "a3" (some 40) none none none] 0 "" "")).max_h_index = 40 := by
  refine ⟨?_, compute_score_tier p, by decide, by decide, by decide, by decide⟩
  rw [compute_score_max_h_index]
  by_cases ha : p.authors.isEmpty <;> simp_all

theorem claim4_witness :
    (compute_score
      (Paper.mk "pw" "" "" [Author.mk "a" (some 12) none none none] 0 "" "")).max_h_index
      = (if ((Paper.mk "pw" "" "" [Author.mk "a" (some 12) none none none]
            0 "" "").authors.filterMap (fun a => a.h_index)).isEmpty then 0
         else listMax ((Paper.mk "pw" "" "" [Author.mk "a" (some 12) none none none]
            0 "" "").authors.filterMap (fun a => a.h_index))) :=
  (claim4_compute_score
    (Paper.mk "pw" "" "" [Author.mk "a" (some 12) none none none] 0 "" "") rfl).1

/-! ## C5: a cache load never raises and degrades to empty -/

/-- Claim C5: Loading a cache never raises (every load path is a total
function into a mapping): an unreachable remote store, a gist without
the target file, blank file content, a missing local file and an
unparsable local file all load as the empty mapping, so the run proceeds
as a cold start. -/
theorem claim5_load_never_fails (md5 : String → String)
    (parseRows : String → List Dict) (store : GistStore) (e msg : String)
    (files : List (String × String)) (content : String) :
    gist_load md5 parseRows store (GistResponse.err e) = []
    ∧ (alget files store.filename = none →
        gist_load md5 parseRows store (GistResponse.ok files) = [])
    ∧ (alget files store.filename = some content → pyStrip content = "" →
        gist_load md5 parseRows store (GistResponse.ok files) = [])
    ∧ load_json LocalFile.missing = []
    ∧ load_json (LocalFile.unparsable msg) = [] := by
  refine ⟨rfl, ?_, ?_, rfl, rfl⟩
  · intro h
    simp [gist_load, h]
  · intro h h2
    simp [gist_load, h, h2]

theorem claim5_witness :
    gist_load (fun s => s) (fun _ => []) (GistStore.mk "sent_papers.csv" ["c"])
      (GistResponse.ok []) = []
    ∧ gist_load (fun s => s) (fun _ => []) (GistStore.mk "sent_papers.csv" ["c"])
      (GistResponse.ok [("sent_papers.csv", "  ")]) = [] :=
  ⟨(claim5_load_never_fails (fun s => s) (fun _ => [])
      (GistStore.mk "sent_papers.csv" ["c"]) "" "" [] "").2.1 rfl,
   (claim5_load_never_fails (fun s => s) (fun _ => [])
      (GistStore.mk "sent_papers.csv" ["c"]) "" "" [("sent_papers.csv", "  ")]
      "  ").2.2.1 rfl (by decide)⟩

/-! ## C6: `save` writes the two mappings independently -/

/-- Claim C6: `CacheManager.save` attempts the author-store write and the
sent-papers-store write independently: each store receives exactly one
`save` call whatever the other store does, a failure is caught and
turned into a log line instead of propagating (the function is total and
returns), and the in-memory manager comes back unchanged even when a
write fails. -/
theorem claim6_save_independent (authorStore sentStore : StoreStub)
    (cm : CacheManager) :
    (cm_save authorStore sentStore cm).1 = cm
    ∧ (cm_save authorStore sentStore cm).2.1.attempts = authorStore.attempts + 1
    ∧ (cm_save authorStore sentStore cm).2.2.1.attempts = sentStore.attempts + 1
    ∧ (cm_save authorStore sentStore cm).2.2.2
        = (if authorStore.fails
           then ["Failed to save author cache to external store: save failed"]
           else [])
          ++ (if sentStore.fails
           then ["Failed to save sent papers to external store: save failed"]
           else []) := by
  refine ⟨rfl, rfl, rfl, ?_⟩
  unfold cm_save StoreStub.doSave
  by_cases ha : authorStore.fails <;> by_cases hs : sentStore.fails <;>
    simp [ha, hs]

/-! ## C3: the three-case contract of `_evaluate_author` -/

/-- Claim C3: Resolving a single author satisfies the cache contract.
Case 1 (hit): a non-expired cached entry populates the author's fields
and the external source is never consulted (the outcome is the same for
every `search` function) and the cache state is unchanged.
Case 2 (lookup failure): an exception from the search, or a `None`
result, leaves the author's optional fields and the cache untouched, and
the function still returns (no exception escapes: the embedding is a
total function into a normal result).
Case 3 (miss, then success): the fields are populated from the response
and written through to the cache, so evaluating the same author name a
second time — even with a metrics source that errors on every call —
succeeds with identical metrics, served from the cache. -/
theorem claim3_evaluate_author (md5 : String → String) (now : Int)
    (search : String → SearchOutcome) (cm : CacheManager) (a : Author) :
    (∀ cached, a.name ≠ "" → get_author md5 now cm a.name = some cached →
        evaluate_author md5 now search cm a =
          ({ a with
              h_index := getInt? cached "h_index"
              citation_count := getInt? cached "citation_count"
              paper_count := getInt? cached "paper_count"
              semantic_scholar_url := getStr? cached "url" },
           cm, [Ev.hit a.name])
        ∧ ∀ search2, evaluate_author md5 now search2 cm a
            = evaluate_author md5 now search cm a)
    ∧ (a.name ≠ "" → get_author md5 now cm a.name = none →
        (∀ e, search a.name = Except.error e →
          evaluate_author md5 now search cm a = (a, cm, [Ev.fetch a.name]))
        ∧ (search a.name = Except.ok none →
          evaluate_author md5 now search cm a = (a, cm, [Ev.fetch a.name])))
    ∧ (∀ data, a.name ≠ "" → get_author md5 now cm a.name = none →
        search a.name = Except.ok (some data) → data.isEmpty = false →
        0 ≤ cm.authorCacheExpiry →
        (evaluate_author md5 now search cm a).1.h_index
            = some (getIntD data "hIndex" 0)
        ∧ (evaluate_author md5 now search cm a).1.citation_count
            = some (getIntD data "citationCount" 0)
        ∧ (evaluate_author md5 now search cm a).1.paper_count
            = some (getIntD data "paperCount" 0)
        ∧ (evaluate_author md5 now search cm a).1.semantic_scholar_url
            = some (getStrD data "url" "")
        ∧ (alget (evaluate_author md5 now search cm a).2.1.authorCache
            (author_key md5 a.name)).isSome
        ∧ (∀ search2 b, b.name = a.name →
            (evaluate_author md5 now search2
                (evaluate_author md5 now search cm a).2.1 b).1.h_index
              = (evaluate_author md5 now search cm a).1.h_index
            ∧ (evaluate_author md5 now search2
                (evaluate_author md5 now search cm a).2.1 b).1.citation_count
              = (evaluate_author md5 now search cm a).1.citation_count
            ∧ (evaluate_author md5 now search2
                (evaluate_author md5 now search cm a).2.1 b).1.paper_count
              = (evaluate_author md5 now search cm a).1.paper_count
            ∧ (evaluate_author md5 now search2
                (evaluate_author md5 now search cm a).2.1 b).1.semantic_scholar_url
              = (evaluate_author md5 now search cm a).1.semantic_scholar_url
            ∧ (evaluate_author md5 now search2
                (evaluate_author md5 now search cm a).2.1 b).2.1
              = (evaluate_author md5 now search cm a).2.1
            ∧ (evaluate_author md5 now search2
                (evaluate_author md5 now search cm a).2.1 b).2.2
              = [Ev.hit b.name])) := by
  refine ⟨?_, ?_, ?_⟩
  · intro cached hname hget
    constructor
    · simp [evaluate_author, hname, hget]
    · intro search2
      simp [evaluate_author, hname, hget]
  · intro hname hget
    constructor
    · intro e hsearch
      simp [evaluate_author, hname, hget, hsearch]
    · intro hsearch
      simp [evaluate_author, hname, hget, hsearch]
  · intro data hname hget hsearch hdata hexp
    have h1 : evaluate_author md5 now search cm a =
        ({ a with
            h_index := some (getIntD data "hIndex" 0)
            citation_count := some (getIntD data "citationCount" 0)
            paper_count := some (getIntD data "paperCount" 0)
            semantic_scholar_url := some (getStrD data "url" "") },
         { cm with authorCache := (alinsert cm.authorCache
            (author_key md5 a.name)
            [("h_index", Val.int (getIntD data "hIndex" 0)),
             ("citation_count", Val.int (getIntD data "citationCount" 0)),
             ("paper_count", Val.int (getIntD data "paperCount" 0)),
             ("url", Val.str (getStrD data "url" "")),
             ("cached_at", Val.int now),
             ("name", Val.str a.name)]) },
         [Ev.fetch a.name]) := by
      simp [evaluate_author, hname, hget, hsearch, hdata, set_author, alinsert]
    have hget2 : ∀ b : Author, b.name = a.name →
        get_author md5 now
          (evaluate_author md5 now search cm a).2.1 b.name =
        some [("h_index", Val.int (getIntD data "hIndex" 0)),
              ("citation_count", Val.int (getIntD data "citationCount" 0)),
              ("paper_count", Val.int (getIntD data "paperCount" 0)),
              ("url", Val.str (getStrD data "url" "")),
              ("cached_at", Val.int now),
              ("name", Val.str a.name)] := by
      intro b hb
      rw [h1]
      simp only [get_author, hb]
      rw [alget_alinsert_self]
      simp [entry_time, alget, hexp]
    refine ⟨by rw [h1], by rw [h1], by rw [h1], by rw [h1], ?_, ?_⟩
    · rw [h1]
      simp [alget_alinsert_self]
    · intro search2 b hb
      have hbname : b.name ≠ "" := by rw [hb]; exact hname
      have h2 : ∀ cmx : CacheManager,
          get_author md5 now cmx b.name =
            some [("h_index", Val.int (getIntD data "hIndex" 0)),
                  ("citation_count", Val.int (getIntD data "citationCount" 0)),
                  ("paper_count", Val.int (getIntD data "paperCount" 0)),
                  ("url", Val.str (getStrD data "url" "")),
                  ("cached_at", Val.int now),
                  ("name", Val.str a.name)] →
          evaluate_author md5 now search2 cmx b =
            ({ b with
                h_index := some (getIntD data "hIndex" 0)
                citation_count := some (getIntD data "citationCount" 0)
                paper_count := some (getIntD data "paperCount" 0)
                semantic_scholar_url := some (getStrD data "url" "") },
             cmx, [Ev.hit b.name]) := by
        intro cmx hg
        simp [evaluate_author, hbname, hg, getInt?, getStr?, alget]
      rw [h2 (evaluate_author md5 now search cm a).2.1 (hget2 b hb), h1]
      exact ⟨rfl, rfl, rfl, rfl, rfl, rfl⟩

theorem claim3_witness :
    evaluate_author (fun s => s) 0 (fun _ => Except.error "down")
      (CacheManager.mk 180 30 [] []) (Author.mk "alice" none none none none)
      = (Author.mk "alice" none none none none, CacheManager.mk 180 30 [] [],
         [Ev.fetch "alice"])
    ∧ (evaluate_author (fun s => s) 0
        (fun _ => Except.ok (some [("hIndex", Val.int 42)]))
        (CacheManager.mk 180 30 [] [])
        (Author.mk "alice" none none none none)).1.h_index
      = some (getIntD [("hIndex", Val.int 42)] "hIndex" 0) :=
  ⟨((claim3_evaluate_author (fun s => s) 0 (fun _ => Except.error "down")
      (CacheManager.mk 180 30 [] [])
      (Author.mk "alice" none none none none)).2.1
      (by decide) rfl).1 "down" rfl,
   ((claim3_evaluate_author (fun s => s) 0
      (fun _ => Except.ok (some [("hIndex", Val.int 42)]))
      (CacheManager.mk 180 30 [] [])
      (Author.mk "alice" none none none none)).2.2
      [("hIndex", Val.int 42)] (by decide) rfl rfl rfl (by decide)).1⟩

/-! ## C7: truncation and the rate-limit sleep rule -/

theorem evaluate_author_no_sleep (md5 : String → String) (now : Int)
    (search : String → SearchOutcome) (cm : CacheManager) (a : Author) :
    ((evaluate_author md5 now search cm a).2.2).count Ev.sleep = 0 := by
  by_cases hname : a.name = ""
  · simp [evaluate_author, hname]
  · cases hga : get_author md5 now cm a.name with
    | some cached => simp [evaluate_author, hname, hga]
    | none =>
        cases hs : search a.name with
        | error e => simp [evaluate_author, hname, hga, hs]
        | ok od =>
            cases od with
            | none => simp [evaluate_author, hname, hga, hs]
            | some data =>
                by_cases hd : data.isEmpty <;>
                  simp [evaluate_author, hname, hga, hs, hd]

theorem compute_score_authors (p : Paper) :
    (compute_score p).authors = p.authors := by
  unfold compute_score
  by_cases ha : p.authors.isEmpty <;> simp [ha]

theorem evaluate_loop_fst_length (md5 : String → String) (now : Int)
    (search : String → SearchOutcome) (total : Int) (l : List Author)
    (i : Int) (cm : CacheManager) :
    (evaluate_loop md5 now search total l i cm).1.length = l.length := by
  induction l generalizing i cm with
  | nil => simp [evaluate_loop]
  | cons a rest ih => simp [evaluate_loop, ih]

theorem evaluate_loop_sleep_count (md5 : String → String) (now : Int)
    (search : String → SearchOutcome) (total : Int) (l : List Author)
    (i : Int) (cm : CacheManager) :
    ((evaluate_loop md5 now search total l i cm).2.2).count Ev.sleep
      = min l.length (Int.toNat (total - 1 - i)) := by
  induction l generalizing i cm with
  | nil => simp [evaluate_loop]
  | cons a rest ih =>
      simp only [evaluate_loop, List.count_append, evaluate_author_no_sleep,
        ih, List.length_cons, Nat.zero_add]
      by_cases hi : i < total - 1 <;> simp [hi] <;> omega

/-- Claim C7 counterexample: With two authors both served from the cache,
`evaluate_paper` still sleeps between them: the trace is
`[hit, sleep, hit]`, containing a sleep although no fetch call occurs at
all — refuting the claim that the delay is inserted only between
consecutive external fetch calls and never after a cache hit. -/
theorem claim7_counterexample :
    ((evaluate_paper (fun s => s) 0 (fun _ => Except.error "down")
        (CacheManager.mk 180 30
          [("a1", [("h_index", Val.int 5), ("cached_at", Val.int 0)]),
           ("a2", [("h_index", Val.int 6), ("cached_at", Val.int 0)])] [])
        (Paper.mk "p" "" ""
          [Author.mk "a1" none none none none,
           Author.mk "a2" none none none none] 0 "" "") 5).2.2
      = [Ev.hit "a1", Ev.sleep, Ev.hit "a2"])
    ∧ Ev.sleep ∈ (evaluate_paper (fun s => s) 0 (fun _ => Except.error "down")
        (CacheManager.mk 180 30
          [("a1", [("h_index", Val.int 5), ("cached_at", Val.int 0)]),
           ("a2", [("h_index", Val.int 6), ("cached_at", Val.int 0)])] [])
        (Paper.mk "p" "" ""
          [Author.mk "a1" none none none none,
           Author.mk "a2" none none none none] 0 "" "") 5).2.2
    ∧ (∀ n, Ev.fetch n ∉ (evaluate_paper (fun s => s) 0
        (fun _ => Except.error "down")
        (CacheManager.mk 180 30
          [("a1", [("h_index", Val.int 5), ("cached_at", Val.int 0)]),
           ("a2", [("h_index", Val.int 6), ("cached_at", Val.int 0)])] [])
        (Paper.mk "p" "" ""
          [Author.mk "a1" none none none none,
           Author.mk "a2" none none none none] 0 "" "") 5).2.2) := by
  have htr : (evaluate_paper (fun s => s) 0 (fun _ => Except.error "down")
        (CacheManager.mk 180 30
          [("a1", [("h_index", Val.int 5), ("cached_at", Val.int 0)]),
           ("a2", [("h_index", Val.int 6), ("cached_at", Val.int 0)])] [])
        (Paper.mk "p" "" ""
          [Author.mk "a1" none none none none,
           Author.mk "a2" none none none none] 0 "" "") 5).2.2
      = [Ev.hit "a1", Ev.sleep, Ev.hit "a2"] := by decide
  refine ⟨htr, ?_, ?_⟩
  · rw [htr]
    simp
  · intro n
    rw [htr]
    simp

/-- Claim C7 amended: During `evaluate_paper` only the first
`max_authors` authors (in source order) are resolved — the suffix of the
author list is returned untouched — but the fixed rate-limit delay is
inserted after every evaluated author whose 0-based index `i` satisfies
`i < len(authors) - 1`, regardless of whether that author was resolved
from cache or by an external fetch (so cache hits are throttled too, and
when the author list is longer than `max_authors` a delay also follows
the last evaluated author): the number of sleeps is exactly
`min k (len - 1)` for `k` evaluated authors, for every cache state and
every metrics source. -/
theorem claim7_amended (md5 : String → String) (now : Int)
    (search : String → SearchOutcome) (cm : CacheManager) (p : Paper)
    (max_authors : Nat) :
    ((evaluate_paper md5 now search cm p max_authors).1.authors.length
        = p.authors.length)
    ∧ ((evaluate_paper md5 now search cm p max_authors).1.authors.drop max_authors
        = p.authors.drop max_authors)
    ∧ (((evaluate_paper md5 now search cm p max_authors).2.2).count Ev.sleep
        = min (p.authors.take max_authors).length (p.authors.length - 1)) := by
  refine ⟨?_, ?_, ?_⟩
  · show (compute_score _).authors.length = _
    rw [compute_score_authors]
    simp [evaluate_loop_fst_length]
    omega
  · show ((compute_score _).authors).drop max_authors = _
    rw [compute_score_authors]
    simp only [List.drop_append_eq_append_drop, evaluate_loop_fst_length]
    have hlen : (p.authors.take max_authors).length ≤ max_authors := by
      simp
    rw [List.drop_eq_nil_of_le (by rw [evaluate_loop_fst_length]; exact hlen)]
    rcases le_or_lt max_authors p.authors.length with hle | hlt
    · have : (p.authors.take max_authors).length = max_authors := by
        simp [hle]
      rw [this, Nat.sub_self]
      simp
    · have h1 : p.authors.drop max_authors = [] :=
        List.drop_eq_nil_of_le (Nat.le_of_lt hlt)
      simp [h1]
  · show ((evaluate_loop md5 now search (p.authors.length : Int)
        (p.authors.take max_authors) 0 cm).2.2).count Ev.sleep = _
    rw [evaluate_loop_sleep_count]
    congr 1
    omega

/-! ## C8: row order of the serialized CSV document -/

theorem Val.keyLe_total (v w : Val) :
    Val.keyLe v w = true ∨ Val.keyLe w v = true := by
  cases v <;> cases w <;> simp [Val.keyLe] <;> apply le_total

theorem Val.keyLe_trans {u v w : Val} (h1 : Val.keyLe u v = true)
    (h2 : Val.keyLe v w = true) : Val.keyLe u w = true := by
  cases u <;> cases v <;> cases w <;> simp_all [Val.keyLe] <;>
    exact le_trans h1 h2

/-- Claim C8 counterexample: For the sent-papers store (columns
`paper_id, doi, title, source, source_symbol, sent_at, citation_label`)
the serialized rows are *not* sorted by the `sent_at` timestamp: with
two rows whose `sent_at` order and `citation_label` order disagree, the
written order is by `citation_label` (the last configured column), so
the output is out of order on `sent_at`. -/
theorem claim8_counterexample :
    gist_save_rows (GistStore.mk "sent_papers.csv" SENT_PAPERS_COLUMNS)
      [("kA", [("paper_id", Val.str "A"), ("sent_at", Val.str "2024-01-01"),
               ("citation_label", Val.str "z")]),
       ("kB", [("paper_id", Val.str "B"), ("sent_at", Val.str "2024-01-02"),
               ("citation_label", Val.str "a")])]
      = [[("paper_id", Val.str "B"), ("sent_at", Val.str "2024-01-02"),
          ("citation_label", Val.str "a")],
         [("paper_id", Val.str "A"), ("sent_at", Val.str "2024-01-01"),
          ("citation_label", Val.str "z")]]
    ∧ ¬ List.Sorted (fun r s => getStrD r "sent_at" "" ≤ getStrD s "sent_at" "")
        (gist_save_rows (GistStore.mk "sent_papers.csv" SENT_PAPERS_COLUMNS)
          [("kA", [("paper_id", Val.str "A"), ("sent_at", Val.str "2024-01-01"),
                   ("citation_label", Val.str "z")]),
           ("kB", [("paper_id", Val.str "B"), ("sent_at", Val.str "2024-01-02"),
                   ("citation_label", Val.str "a")])]) := by
  have h : gist_save_rows (GistStore.mk "sent_papers.csv" SENT_PAPERS_COLUMNS)
      [("kA", [("paper_id", Val.str "A"), ("sent_at", Val.str "2024-01-01"),
               ("citation_label", Val.str "z")]),
       ("kB", [("paper_id", Val.str "B"), ("sent_at", Val.str "2024-01-02"),
               ("citation_label", Val.str "a")])]
      = [[("paper_id", Val.str "B"), ("sent_at", Val.str "2024-01-02"),
          ("citation_label", Val.str "a")],
         [("paper_id", Val.str "A"), ("sent_at", Val.str "2024-01-01"),
          ("citation_label", Val.str "z")]] := by
    simp [gist_save_rows, List.insertionSort, List.orderedInsert, save_key,
      SENT_PAPERS_COLUMNS, alget, getStrD, Val.keyLe]
    decide
  refine ⟨h, ?_⟩
  rw [h]
  rw [List.sorted_cons]
  rintro ⟨h2, -⟩
  have h3 := h2 _ (List.mem_cons_self _ _)
  revert h3
  simp [getStrD, alget]
  decide

/-- Claim C8 amended: The remote store serializes the mapping's rows
sorted (stably) by the row's value in the *last* configured column —
which is `cached_at` for the author cache, as the claim said, but
`citation_label` (not `sent_at`) for the sent-papers cache — and the
written rows are a permutation of the mapping's values, so repeated
saves of the same data produce the same deterministic document. -/
theorem claim8_amended (store : GistStore) (data : List (String × Dict)) :
    List.Sorted
      (fun r s => Val.keyLe (save_key store r) (save_key store s) = true)
      (gist_save_rows store data)
    ∧ (gist_save_rows store data).Perm (data.map Prod.snd)
    ∧ (gist_save_body store data).length = data.length
    ∧ AUTHOR_CACHE_COLUMNS.getLastD "" = "cached_at"
    ∧ SENT_PAPERS_COLUMNS.getLastD "" = "citation_label" := by
  haveI hT : IsTotal Dict
      (fun r s => Val.keyLe (save_key store r) (save_key store s) = true) :=
    ⟨fun r s => Val.keyLe_total (save_key store r) (save_key store s)⟩
  haveI hTr : IsTrans Dict
      (fun r s => Val.keyLe (save_key store r) (save_key store s) = true) :=
    ⟨fun _ _ _ h1 h2 => Val.keyLe_trans h1 h2⟩
  refine ⟨List.sorted_insertionSort _ _, List.perm_insertionSort _ _, ?_, rfl, rfl⟩
  have hp : (gist_save_rows store data).Perm (data.map Prod.snd) :=
    List.perm_insertionSort _ _
  show ((gist_save_rows store data).map _).length = _
  rw [List.length_map, hp.length_eq, List.length_map]

end ArticleChecker
